import Mathlib

/-!
Shallow embedding of the K3 Insight App (`k3-app-gem.py`): the region
classifier `map_wilayah_indonesia`, the aggregation pipeline of
`analyze_k3_data` and the Detailed Analytics page, the chart builders,
the model selector `get_available_model`, and the module-level upload
handler's exception flow.  Strings are Lean `String`s; Python's
`x in d` substring test and `str.upper` are embedded below.
-/

/-- Python `d.startswith(x)` on character lists: `leadsWith d x` is true
when `x` is a prefix of `d`. -/
def leadsWith : List Char → List Char → Bool
  | _, [] => true
  | [], _ :: _ => false
  | a :: as, b :: bs => a == b && leadsWith as bs

/-- Python `x in d` on character lists: `containsSub d x` is true when `x`
occurs as a contiguous substring of `d`. -/
def containsSub : List Char → List Char → Bool
  | [], x => leadsWith [] x
  | d :: ds, x => leadsWith (d :: ds) x || containsSub ds x

/-- Python `x in d` for strings. -/
def inStr (x d : String) : Bool := containsSub d.data x.data

/-- Python `s.upper()` (ASCII case mapping, which covers every keyword of
the classifier). -/
def upperStr (s : String) : String := String.mk (s.data.map Char.toUpper)

/-- Python `any(x in d for x in ks)` (line 38 and friends). -/
def anyKeyword (d : String) (ks : List String) : Bool := ks.any (fun x => inStr x d)

/-- Keyword set of line 38 of `k3-app-gem.py` (region `Jawa`). -/
def jawaKeys : List String :=
  ["GRESIK", "PAITON", "MUARA", "CIRATA", "PRIOK", "INDRAMAYU", "JAWA",
   "PACITAN", "REMBANG", "ADIPALA"]

/-- Keyword set of line 40 (region `Sulawesi`). -/
def sulawesiKeys : List String :=
  ["BAKARU", "PUNAGAYA", "MINAHASA", "SULAWESI", "MAMUJU", "KOLAKA",
   "BARRU", "KENDARI"]

/-- Keyword set of line 42 (region `Kalimantan`). -/
def kalimantanKeys : List String :=
  ["BARITO", "ASAM", "KALIMANTAN", "BANJAR", "KETAPANG", "SAMPIT", "SINTANG"]

/-- Keyword set of line 44 (region `Sumatera`). -/
def sumateraKeys : List String :=
  ["BELAWAN", "SEBALANG", "SUMATERA", "TELUK SIRIH", "PANGKALAN SUSU", "RIAU"]

/-- Keyword set of line 46 (region `Nusa Tenggara`). -/
def nusaKeys : List String :=
  ["BOLOK", "KUPANG", "SUMBAWA", "LOMBOK", "NTB", "NTT"]

/-- Keyword set of line 48 (region `Maluku & Papua`). -/
def malukuKeys : List String :=
  ["PAPUA", "MALUKU", "AMBON", "JAYAPURA"]

/-- The body of `map_wilayah_indonesia` after the uppercasing of line 37:
the if/elif chain of lines 38-50. -/
def classifyUpper (d : String) : String :=
  if anyKeyword d jawaKeys then "Jawa"
  else if anyKeyword d sulawesiKeys then "Sulawesi"
  else if anyKeyword d kalimantanKeys then "Kalimantan"
  else if anyKeyword d sumateraKeys then "Sumatera"
  else if anyKeyword d nusaKeys then "Nusa Tenggara"
  else if anyKeyword d malukuKeys then "Maluku & Papua"
  else "Lainnya"

/-- `map_wilayah_indonesia` (lines 34-50) on a string-or-null cell:
`none` is a value with `pd.isna(...) = True`. -/
def map_wilayah_indonesia : Option String → String
  | none => "Lainnya"
  | some distrik => classifyUpper (upperStr distrik)

/-- Follows the spec's words (§4.1): the classifier as an ordered list of
(label, keyword set) pairs in the fixed priority order Java (`Jawa`),
Sulawesi, Kalimantan, Sumatra (`Sumatera`), Nusa Tenggara, Maluku & Papua. -/
def specRegionTable : List (String × List String) :=
  [("Jawa", jawaKeys), ("Sulawesi", sulawesiKeys), ("Kalimantan", kalimantanKeys),
   ("Sumatera", sumateraKeys), ("Nusa Tenggara", nusaKeys), ("Maluku & Papua", malukuKeys)]

/-- Follows the spec's words (§4.1): the label of the first set in the
table for which any keyword is a substring of the (already uppercased)
input, if any set matches. -/
def firstMatchLabel (d : String) : List (String × List String) → Option String
  | [] => none
  | (lbl, ks) :: rest => if anyKeyword d ks then some lbl else firstMatchLabel d rest

lemma classifyUpper_eq_firstMatch (d : String) :
    classifyUpper d = (firstMatchLabel d specRegionTable).getD "Lainnya" := by
  simp only [classifyUpper, specRegionTable, firstMatchLabel]
  split_ifs <;> rfl

lemma firstMatchLabel_isSome_of_match (d : String) :
    ∀ t : List (String × List String), (∃ p ∈ t, anyKeyword d p.2 = true) →
      ∃ lbl, firstMatchLabel d t = some lbl := by
  intro t
  induction t with
  | nil => rintro ⟨p, hp, -⟩; exact absurd hp (List.not_mem_nil p)
  | cons q rest ih =>
    rintro ⟨p, hp, hmatch⟩
    obtain ⟨lbl, ks⟩ := q
    cases hq : anyKeyword d ks with
    | true => exact ⟨lbl, by simp [firstMatchLabel, hq]⟩
    | false =>
      rcases List.mem_cons.mp hp with rfl | hp'
      · rw [hq] at hmatch; exact Bool.noConfusion hmatch
      · obtain ⟨l', hl'⟩ := ih ⟨p, hp', hmatch⟩
        exact ⟨l', by simp [firstMatchLabel, hq, hl']⟩

lemma firstMatchLabel_eq_none_iff (d : String) :
    ∀ t : List (String × List String),
      firstMatchLabel d t = none ↔ ∀ p ∈ t, anyKeyword d p.2 = false := by
  intro t
  induction t with
  | nil => simp [firstMatchLabel]
  | cons q rest ih =>
    obtain ⟨lbl, ks⟩ := q
    cases hq : anyKeyword d ks with
    | true =>
      simp only [firstMatchLabel, hq, if_true]
      constructor
      · intro h; exact Option.noConfusion h
      · intro hall
        have hc := hall (lbl, ks) (List.mem_cons_self _ _)
        rw [hq] at hc
        exact Bool.noConfusion hc
    | false => simp [firstMatchLabel, hq, ih]

lemma firstMatchLabel_mem_labels (d : String) :
    ∀ (t : List (String × List String)) (lbl : String),
      firstMatchLabel d t = some lbl → ∃ p ∈ t, p.1 = lbl := by
  intro t
  induction t with
  | nil => intro lbl h; simp [firstMatchLabel] at h
  | cons q rest ih =>
    obtain ⟨l', ks⟩ := q
    intro lbl h
    cases hq : anyKeyword d ks with
    | true =>
      simp only [firstMatchLabel, hq, if_true, Option.some.injEq] at h
      exact ⟨(l', ks), List.mem_cons_self _ _, h⟩
    | false =>
      simp only [firstMatchLabel, hq] at h
      rw [if_neg (by simp)] at h
      obtain ⟨p, hp, hpl⟩ := ih lbl h
      exact ⟨p, List.mem_cons_of_mem _ hp, hpl⟩

/-- C1: for every non-null facility-name string containing keywords of two
different regions' keyword sets, `map_wilayah_indonesia` returns the label
of the first keyword set, in the fixed priority order Java (`Jawa`),
Sulawesi, Kalimantan, Sumatra (`Sumatera`), Nusa Tenggara, Maluku & Papua,
containing a keyword that is a substring of the uppercased input. -/
theorem C1_priority_order (s : String)
    (h : ∃ p ∈ specRegionTable, ∃ q ∈ specRegionTable,
      p.1 ≠ q.1 ∧ anyKeyword (upperStr s) p.2 = true ∧ anyKeyword (upperStr s) q.2 = true) :
    ∃ lbl, firstMatchLabel (upperStr s) specRegionTable = some lbl ∧
      map_wilayah_indonesia (some s) = lbl := by
  obtain ⟨p, hp, q, hq, -, hpm, -⟩ := h
  obtain ⟨lbl, hl⟩ := firstMatchLabel_isSome_of_match (upperStr s) specRegionTable ⟨p, hp, hpm⟩
  refine ⟨lbl, hl, ?_⟩
  show classifyUpper (upperStr s) = lbl
  rw [classifyUpper_eq_firstMatch, hl]
  rfl

/-- Witness for C1 at the concrete input "GRESIK KUPANG", which matches
both the Java and the Nusa Tenggara keyword sets. -/
theorem C1_priority_order_witness :
    ∃ lbl, firstMatchLabel (upperStr "GRESIK KUPANG") specRegionTable = some lbl ∧
      map_wilayah_indonesia (some "GRESIK KUPANG") = lbl :=
  C1_priority_order "GRESIK KUPANG"
    ⟨("Jawa", jawaKeys), by decide, ("Nusa Tenggara", nusaKeys), by decide,
      by decide, by decide, by decide⟩

/-- C2: `map_wilayah_indonesia` returns "Lainnya" exactly for null inputs
and for string inputs in which no keyword of any of the six regions'
keyword sets occurs as a substring of the uppercased input. -/
theorem C2_lainnya_iff (v : Option String) :
    map_wilayah_indonesia v = "Lainnya" ↔
      (v = none ∨ ∃ s, v = some s ∧
        ∀ p ∈ specRegionTable, anyKeyword (upperStr s) p.2 = false) := by
  cases v with
  | none => simp [map_wilayah_indonesia]
  | some s =>
    constructor
    · intro h
      refine Or.inr ⟨s, rfl, ?_⟩
      rw [← firstMatchLabel_eq_none_iff]
      have h' : classifyUpper (upperStr s) = "Lainnya" := h
      rw [classifyUpper_eq_firstMatch] at h'
      cases hfm : firstMatchLabel (upperStr s) specRegionTable with
      | none => rfl
      | some lbl =>
        exfalso
        obtain ⟨p, hp, hpl⟩ :=
          firstMatchLabel_mem_labels (upperStr s) specRegionTable lbl hfm
        rw [hfm] at h'
        simp only [Option.getD] at h'
        have hne : ∀ q ∈ specRegionTable, q.1 ≠ "Lainnya" := by decide
        exact hne p hp (hpl.trans h')
    · rintro (h | ⟨s', hs', hall⟩)
      · exact Option.noConfusion h
      · have hss : s = s' := Option.some.inj hs'
        subst hss
        show classifyUpper (upperStr s) = "Lainnya"
        rw [classifyUpper_eq_firstMatch,
          (firstMatchLabel_eq_none_iff (upperStr s) specRegionTable).mpr hall]
        rfl

/-- Two characters are equal up to letter casing when they uppercase to the
same character. -/
def charCaseEq (a b : Char) : Bool := Char.toUpper a == Char.toUpper b

/-- Two character lists are equal up to letter casing: same length and
pointwise `charCaseEq`. -/
def caseEqList : List Char → List Char → Bool
  | [], [] => true
  | a :: as, b :: bs => charCaseEq a b && caseEqList as bs
  | _, _ => false

lemma map_toUpper_eq_of_caseEqList :
    ∀ (as bs : List Char), caseEqList as bs = true →
      as.map Char.toUpper = bs.map Char.toUpper := by
  intro as
  induction as with
  | nil => intro bs h; cases bs with
    | nil => rfl
    | cons b bs => exact Bool.noConfusion h
  | cons a as ih =>
    intro bs h
    cases bs with
    | nil => exact Bool.noConfusion h
    | cons b bs =>
      simp only [caseEqList, Bool.and_eq_true] at h
      have h1 : Char.toUpper a = Char.toUpper b := by
        have := h.1
        simpa [charCaseEq] using this
      simp only [List.map_cons, h1, ih bs h.2]

/-- C8: the classifier is case-insensitive: inputs equal up to letter
casing (same length, characters identified by `Char.toUpper`) classify to
the same region, because line 37 uppercases the input before matching. -/
theorem C8_case_insensitive (s t : String) (h : caseEqList s.data t.data = true) :
    map_wilayah_indonesia (some s) = map_wilayah_indonesia (some t) := by
  have hu : upperStr s = upperStr t := by
    simp only [upperStr]
    exact congrArg String.mk (map_toUpper_eq_of_caseEqList s.data t.data h)
  show classifyUpper (upperStr s) = classifyUpper (upperStr t)
  rw [hu]

/-- Witness for C8: "Gresik" and its uppercase form "GRESIK" classify to
the same region. -/
theorem C8_case_insensitive_witness :
    map_wilayah_indonesia (some "Gresik") = map_wilayah_indonesia (some "GRESIK") :=
  C8_case_insensitive "Gresik" "GRESIK" (by decide)

/-- One row of the uploaded table, restricted to the fields the analysis
reads: `temuan_nama_distrik` (nullable), `temuan_kategori`, `judul`. -/
structure Record where
  temuan_nama_distrik : Option String
  temuan_kategori : String
  judul : String
deriving DecidableEq, Repr

/-- The `Wilayah` column value of a record (lines 53 and 236). -/
def wilayahOf (r : Record) : String := map_wilayah_indonesia r.temuan_nama_distrik

/-- The grouping key of line 56: the pair (`Wilayah`, `temuan_kategori`). -/
def groupKey (r : Record) : String × String := (wilayahOf r, r.temuan_kategori)

/-- Line 56: `df.groupby(['Wilayah', 'temuan_kategori']).size()` — one row
per observed (region, category) pair with the number of records in it. -/
def summary_counts (rs : List Record) : List ((String × String) × Nat) :=
  ((rs.map groupKey).dedup).map (fun k => (k, (rs.map groupKey).count k))

lemma sum_map_add {α : Type} (d : List α) (f g : α → Nat) :
    (d.map (fun k => f k + g k)).sum = (d.map f).sum + (d.map g).sum := by
  induction d with
  | nil => rfl
  | cons a t ih => simp only [List.map_cons, List.sum_cons, ih]; omega

lemma sum_map_indicator {α : Type} [BEq α] [LawfulBEq α] (d : List α) (a : α)
    (hnd : d.Nodup) (ha : a ∈ d) :
    (d.map (fun k => if a == k then 1 else 0)).sum = 1 := by
  induction d with
  | nil => exact absurd ha (List.not_mem_nil a)
  | cons b t ih =>
    rcases List.mem_cons.mp ha with rfl | hat
    · have hbt : a ∉ t := (List.nodup_cons.mp hnd).1
      have hzero : (t.map (fun k => if a == k then 1 else 0)).sum = 0 := by
        apply List.sum_eq_zero
        intro x hx
        obtain ⟨k, hk, rfl⟩ := List.mem_map.mp hx
        have hka : ¬ (a == k) = true := by
          intro hk'
          exact hbt (by rw [eq_of_beq hk']; exact hk)
        simp [hka]
      simp only [List.map_cons, List.sum_cons, hzero]
      simp
    · have hab : ¬ (a == b) = true := by
        intro h'
        have hba : a = b := eq_of_beq h'
        subst hba
        exact (List.nodup_cons.mp hnd).1 hat
      have ih' := ih (List.nodup_cons.mp hnd).2 hat
      simp only [List.map_cons, List.sum_cons, ih']
      simp [hab]

lemma sum_map_count_of_nodup {α : Type} [BEq α] [LawfulBEq α] (l d : List α)
    (hnd : d.Nodup) (hsub : ∀ x ∈ l, x ∈ d) :
    (d.map (fun k => l.count k)).sum = l.length := by
  induction l with
  | nil => simp
  | cons a t ih =>
    have hsub2 : ∀ x ∈ t, x ∈ d := fun x hx => hsub x (List.mem_cons_of_mem _ hx)
    have hstep : (d.map (fun k => (a :: t).count k)).sum
        = (d.map (fun k => t.count k + if a == k then 1 else 0)).sum := by
      congr 1
      apply List.map_congr_left
      intro k _
      rw [List.count_cons]
    rw [hstep, sum_map_add, ih hsub2, List.length_cons,
      sum_map_indicator d a hnd (hsub a (List.mem_cons_self a t))]

/-- C3: the counts in `summary_counts` (line 56, shown again as the
Detailed Analytics summary table at line 301) add up to the total number
of records, for every non-empty record set. -/
theorem C3_counts_sum_to_total (rs : List Record) (_hne : rs ≠ []) :
    ((summary_counts rs).map (fun p => p.2)).sum = rs.length := by
  rw [summary_counts, List.map_map]
  have h2 : ((fun p : (String × String) × Nat => p.2) ∘
      (fun k => (k, (rs.map groupKey).count k))) = fun k => (rs.map groupKey).count k := rfl
  rw [h2, sum_map_count_of_nodup (rs.map groupKey) ((rs.map groupKey).dedup)
      (List.nodup_dedup _) (fun x hx => (List.mem_dedup).mpr hx),
    List.length_map]

/-- Concrete record set used by witnesses: three findings, two in a Java
facility, one in a Sulawesi facility. -/
def rsExample : List Record :=
  [{ temuan_nama_distrik := some "PLTU PAITON", temuan_kategori := "Unsafe Action",
     judul := "No helmet" },
   { temuan_nama_distrik := some "PLTU PAITON", temuan_kategori := "Unsafe Action",
     judul := "No helmet" },
   { temuan_nama_distrik := some "PLTU BAKARU", temuan_kategori := "Unsafe Condition",
     judul := "Wet floor" }]

/-- Witness for C3 on the concrete three-record set. -/
theorem C3_counts_sum_to_total_witness :
    ((summary_counts rsExample).map (fun p => p.2)).sum = rsExample.length :=
  C3_counts_sum_to_total rsExample (by decide)

/-- Descending-count order used by pandas `value_counts`: `cntGe a b` holds
when `a`'s count is at least `b`'s. -/
def cntGe (a b : String × Nat) : Prop := b.2 ≤ a.2

instance : DecidableRel cntGe := fun a b => Nat.decLe b.2 a.2

instance : IsTotal (String × Nat) cntGe := ⟨fun a b => Nat.le_total b.2 a.2⟩

instance : IsTrans (String × Nat) cntGe := ⟨fun _ _ _ hab hbc => Nat.le_trans hbc hab⟩

/-- pandas `Series.value_counts()`: each distinct value with its number of
occurrences, sorted descending by count (stable in first-seen order on
ties, the deterministic reading of the library's unspecified tie order). -/
def valueCounts (l : List String) : List (String × Nat) :=
  List.insertionSort cntGe (l.dedup.map (fun t => (t, l.count t)))

/-- The `judul` values of the records of category `c` (the group of `c` in
line 57's `df.groupby('temuan_kategori')['judul']`). -/
def titlesIn (rs : List Record) (c : String) : List String :=
  (rs.filter (fun r => r.temuan_kategori == c)).map (fun r => r.judul)

/-- Line 57 restricted to one category: `value_counts()` of the `judul`
values of that category, cut to the first three rows by `head(3)`. -/
def topCauses (rs : List Record) (c : String) : List (String × Nat) :=
  (valueCounts (titlesIn rs c)).take 3

/-- The distinct categories of the record set, in first-seen order. -/
def categoriesOf (rs : List Record) : List String :=
  (rs.map (fun r => r.temuan_kategori)).dedup

/-- Line 57: the `top_causes` table, one row group per category. -/
def top_causes (rs : List Record) : List (String × List (String × Nat)) :=
  (categoriesOf rs).map (fun c => (c, topCauses rs c))

/-- Line 309: `df['temuan_kategori'].value_counts()`. -/
def by_category (rs : List Record) : List (String × Nat) :=
  valueCounts (rs.map (fun r => r.temuan_kategori))

/-- C5: on the empty record set the aggregation pipeline yields empty
tables for `by_region_category`, `by_category` and `top_causes`; all three
are total functions, so no error is raised. -/
theorem C5_empty_input :
    summary_counts ([] : List Record) = [] ∧ by_category ([] : List Record) = [] ∧
      top_causes ([] : List Record) = [] :=
  ⟨rfl, rfl, rfl⟩

/-- C4: for every record set and every observed category, the `top_causes`
rows of that category list at most three titles (exactly three when at
least three distinct titles exist), sorted descending by count, each title
with its exact frequency among that category's records, and no unlisted
title of the category has a count exceeding any listed one. -/
theorem C4_top_causes_per_category (rs : List Record) (c : String)
    (h : c ∈ rs.map (fun r => r.temuan_kategori)) :
    (c, topCauses rs c) ∈ top_causes rs ∧
    topCauses rs c ≠ [] ∧
    (topCauses rs c).length = min 3 (titlesIn rs c).dedup.length ∧
    List.Sorted cntGe (topCauses rs c) ∧
    (∀ p ∈ topCauses rs c, p.1 ∈ titlesIn rs c ∧ p.2 = (titlesIn rs c).count p.1) ∧
    (∀ t ∈ titlesIn rs c, t ∉ (topCauses rs c).map Prod.fst →
      ∀ p ∈ topCauses rs c, (titlesIn rs c).count t ≤ p.2) := by
  have hmem_table : (c, topCauses rs c) ∈ top_causes rs :=
    List.mem_map_of_mem (fun c => (c, topCauses rs c)) (List.mem_dedup.mpr h)
  obtain ⟨r, hr, hrc⟩ := List.mem_map.mp h
  have hjl : r.judul ∈ titlesIn rs c := by
    apply List.mem_map_of_mem
    exact List.mem_filter.mpr ⟨hr, by rw [hrc]; exact beq_self_eq_true c⟩
  have hlne : titlesIn rs c ≠ [] := List.ne_nil_of_mem hjl
  have hdpos : 0 < (titlesIn rs c).dedup.length := by
    rcases List.length_pos.mpr ((not_iff_not.mpr (List.dedup_eq_nil _)).mpr hlne) with h'
    exact h'
  have hsorted_all : List.Sorted cntGe
      (List.insertionSort cntGe
        ((titlesIn rs c).dedup.map (fun t => (t, (titlesIn rs c).count t)))) :=
    List.sorted_insertionSort cntGe _
  have hlen : (topCauses rs c).length = min 3 (titlesIn rs c).dedup.length := by
    rw [topCauses, List.length_take, valueCounts, List.length_insertionSort,
      List.length_map]
  refine ⟨hmem_table, ?_, hlen, ?_, ?_, ?_⟩
  · intro hnil
    rw [hnil] at hlen
    simp only [List.length_nil] at hlen
    omega
  · exact List.Pairwise.sublist (List.take_sublist 3 _) hsorted_all
  · intro p hp
    have hp' : p ∈ valueCounts (titlesIn rs c) := List.mem_of_mem_take hp
    rw [valueCounts, List.mem_insertionSort] at hp'
    obtain ⟨t, ht, rfl⟩ := List.mem_map.mp hp'
    exact ⟨List.mem_dedup.mp ht, rfl⟩
  · intro t ht hnot p hp
    have htd : (t, (titlesIn rs c).count t) ∈ valueCounts (titlesIn rs c) := by
      rw [valueCounts, List.mem_insertionSort]
      exact List.mem_map_of_mem _ (List.mem_dedup.mpr ht)
    rw [← List.take_append_drop 3 (valueCounts (titlesIn rs c))] at htd
    rcases List.mem_append.mp htd with hin | hdrop
    · exact absurd (List.mem_map_of_mem Prod.fst hin) hnot
    · exact List.Sorted.rel_of_mem_take_of_mem_drop hsorted_all hp hdrop

/-- Witness for C4 on the concrete three-record set at category
"Unsafe Action". -/
theorem C4_top_causes_per_category_witness :
    (let rs := rsExample; let c := "Unsafe Action";
      (c, topCauses rs c) ∈ top_causes rs ∧
      topCauses rs c ≠ [] ∧
      (topCauses rs c).length = min 3 (titlesIn rs c).dedup.length ∧
      List.Sorted cntGe (topCauses rs c) ∧
      (∀ p ∈ topCauses rs c, p.1 ∈ titlesIn rs c ∧ p.2 = (titlesIn rs c).count p.1) ∧
      (∀ t ∈ titlesIn rs c, t ∉ (topCauses rs c).map Prod.fst →
        ∀ p ∈ topCauses rs c, (titlesIn rs c).count t ≤ p.2)) :=
  C4_top_causes_per_category rsExample "Unsafe Action" (by decide)

/-- Outcome of the remote model query of line 24: either the list of
generation-capable model names, or an exception (the `except` of line 31). -/
inductive ModelQuery where
  | ok (models : List String)
  | failed
deriving DecidableEq, Repr

/-- The fixed priority list of line 26. -/
def priorityModels : List String :=
  ["models/gemini-1.5-flash", "models/gemini-1.5-pro", "models/gemini-pro"]

/-- The `for p in priority` loop of lines 27-29: the first priority entry
contained in the remote list. -/
def firstPriority (models : List String) : List String → Option String
  | [] => none
  | p :: rest => if models.contains p then some p else firstPriority models rest

/-- `get_available_model` (lines 21-32): `none` models the Python `None`
returned at line 30 when the successful query lists no model. -/
def get_available_model : ModelQuery → Option String
  | ModelQuery.failed => some "gemini-1.5-flash"
  | ModelQuery.ok models =>
    match firstPriority models priorityModels with
    | some p => some p
    | none => models.head?

/-- Counterexample to C6: when the remote query succeeds but lists no
usable model, `get_available_model` returns `None` (line 30), not the
hardcoded default — the result can be absent. -/
theorem C6_counterexample_empty_list :
    get_available_model (ModelQuery.ok []) = none := rfl

/-- C6 as amended: the first priority match is returned when one exists,
the hardcoded default is returned only when the query raises, and a
successful query with no priority match yields the first listed model —
which is `None` when the list is empty. -/
theorem C6_model_selection_amended :
    get_available_model ModelQuery.failed = some "gemini-1.5-flash" ∧
    (∀ models p, firstPriority models priorityModels = some p →
      get_available_model (ModelQuery.ok models) = some p) ∧
    (∀ models, firstPriority models priorityModels = none →
      get_available_model (ModelQuery.ok models) = models.head?) := by
  refine ⟨rfl, ?_, ?_⟩
  · intro models p hp
    simp only [get_available_model, hp]
  · intro models hp
    simp only [get_available_model, hp]

/-- Witness for C6 (amended): a remote list containing two priority models
selects the one earliest in the priority order. -/
theorem C6_model_selection_amended_witness :
    get_available_model
      (ModelQuery.ok ["models/gemini-pro", "models/gemini-1.5-flash"])
      = some "models/gemini-1.5-flash" :=
  C6_model_selection_amended.2.1 ["models/gemini-pro", "models/gemini-1.5-flash"]
    "models/gemini-1.5-flash" (by decide)

/-- A user-visible component of the Streamlit page (lines 232-316). -/
inductive Component where
  | metrics | pieChart | barChart | heatmap | stackedBar | histogram
  | modelInfo | narration | dataPreview | summaryTable | distTables | errorBox
deriving DecidableEq, Repr

/-- The sidebar page selected at line 227. -/
inductive Page where
  | dashboard | aiInsights | detailedAnalytics
deriving DecidableEq, Repr

/-- The components each page renders in order inside the single `try`
block of lines 234-312 (metrics first, then the page's own widgets). -/
def pageSteps : Page → List Component
  | Page.dashboard =>
    [Component.metrics, Component.pieChart, Component.barChart, Component.heatmap,
     Component.stackedBar, Component.histogram]
  | Page.aiInsights => [Component.metrics, Component.modelInfo, Component.narration]
  | Page.detailedAnalytics =>
    [Component.metrics, Component.dataPreview, Component.summaryTable,
     Component.distTables]

/-- Sequential rendering inside the `try` block: components are emitted in
order until one raises; the Bool records whether an exception escaped to
the module-level `except` (line 314). -/
def renderSeq (fails : Component → Bool) : List Component → List Component × Bool
  | [] => ([], false)
  | c :: rest =>
    if fails c then ([], true)
    else
      let p := renderSeq fails rest
      (c :: p.1, p.2)

/-- The module-level upload handler (lines 232-316): the components shown
to the user — everything rendered before the first failure, plus the
generic error box of lines 315-316 when any component raised. -/
def upload_handler (page : Page) (fails : Component → Bool) : List Component :=
  let r := renderSeq fails (pageSteps page)
  if r.2 then r.1 ++ [Component.errorBox] else r.1

/-- The failure injection used by C7's counterexample and witness: only
the pie-chart builder raises. -/
def failsPie : Component → Bool := fun c => c == Component.pieChart

lemma renderSeq_of_any_true (fails : Component → Bool) :
    ∀ steps : List Component, steps.any fails = true →
      renderSeq fails steps = (steps.takeWhile (fun c => !(fails c)), true) := by
  intro steps
  induction steps with
  | nil => intro h; simp at h
  | cons c rest ih =>
    intro h
    cases hc : fails c with
    | true => simp [renderSeq, hc, List.takeWhile_cons]
    | false =>
      have h' : rest.any fails = true := by
        rw [List.any_cons, hc] at h
        simpa using h
      simp [renderSeq, hc, List.takeWhile_cons, ih h']

lemma renderSeq_of_any_false (fails : Component → Bool) :
    ∀ steps : List Component, steps.any fails = false →
      renderSeq fails steps = (steps, false) := by
  intro steps
  induction steps with
  | nil => intro h; rfl
  | cons c rest ih =>
    intro h
    rw [List.any_cons] at h
    have hc : fails c = false := by
      cases hfc : fails c with
      | false => rfl
      | true => rw [hfc] at h; simp at h
    have h' : rest.any fails = false := by
      rw [hc] at h
      simpa using h
    simp [renderSeq, hc, ih h']

/-- Counterexample to C7: with only the pie-chart builder failing, the bar
chart of the same session is a dashboard component yet is not shown — the
single module-level `try`/`except` aborts the rest of the page, so chart
failures are not isolated per-component. -/
theorem C7_counterexample_chart_not_isolated :
    failsPie Component.pieChart = true ∧
    Component.barChart ∈ pageSteps Page.dashboard ∧
    Component.barChart ∉ upload_handler Page.dashboard failsPie := by decide

/-- C7 as amended: any component failure (narration or chart) is caught by
the one module-level handler, which keeps the components rendered before
the failure, drops everything after it, and shows the generic error box;
when nothing fails the whole page renders. -/
theorem C7_amended_single_handler (page : Page) (fails : Component → Bool) :
    ((pageSteps page).any fails = true →
      upload_handler page fails
        = (pageSteps page).takeWhile (fun c => !(fails c)) ++ [Component.errorBox]) ∧
    ((pageSteps page).any fails = false →
      upload_handler page fails = pageSteps page) := by
  constructor
  · intro h
    rw [upload_handler, renderSeq_of_any_true fails _ h]
    rfl
  · intro h
    rw [upload_handler, renderSeq_of_any_false fails _ h]
    rfl

/-- Witness for C7 (amended) at the concrete failure of the pie chart on
the dashboard page. -/
theorem C7_amended_single_handler_witness :
    upload_handler Page.dashboard failsPie
      = (pageSteps Page.dashboard).takeWhile (fun c => !(failsPie c))
        ++ [Component.errorBox] :=
  (C7_amended_single_handler Page.dashboard failsPie).1 (by decide)

/-- The in-memory dataframe: the parsed rows plus the derived `Wilayah`
column, which is absent (`none`) until assigned. -/
structure Df where
  rows : List Record
  wilayah : Option (List String)
deriving DecidableEq, Repr

/-- The column assignment `df['Wilayah'] = df['temuan_nama_distrik']
.apply(map_wilayah_indonesia)` (lines 53 and 236) as its effect on the
dataframe state. -/
def setWilayah (df : Df) : Df :=
  { df with wilayah := some (df.rows.map wilayahOf) }

/-- Line 236: the dataframe right after loading and classification — the
state every later analysis and chart-building call receives. -/
def load_step (rows : List Record) : Df :=
  setWilayah { rows := rows, wilayah := none }

/-- The state effect of `analyze_k3_data` (line 53): it re-runs the same
column assignment on its input dataframe. -/
def analyze_step (df : Df) : Df := setWilayah df

/-- The `temuan_kategori` column. -/
def kategoriCol (df : Df) : List String := df.rows.map (fun r => r.temuan_kategori)

/-- The `Wilayah` column (empty when never assigned). -/
def wilayahCol (df : Df) : List String := df.wilayah.getD []

/-- `df.groupby([c1, c2]).size()`: one row per observed key pair with its
count (lines 108 and 135). -/
def pairCounts (l : List (String × String)) : List ((String × String) × Nat) :=
  l.dedup.map (fun k => (k, l.count k))

/-- `create_kategori_pie_chart` (lines 79-90): category distribution; the
returned state is the dataframe after the call. -/
def create_kategori_pie_chart (df : Df) : List (String × Nat) × Df :=
  (valueCounts (kategoriCol df), df)

/-- `create_wilayah_bar_chart` (lines 92-104): counts per region. -/
def create_wilayah_bar_chart (df : Df) : List (String × Nat) × Df :=
  (valueCounts (wilayahCol df), df)

/-- `create_kategori_wilayah_heatmap` (lines 106-116): the
(region, category) count matrix. -/
def create_kategori_wilayah_heatmap (df : Df) :
    List ((String × String) × Nat) × Df :=
  (pairCounts ((wilayahCol df).zip (kategoriCol df)), df)

/-- `create_distrik_histogram` (lines 118-131): top 15 facilities by
count (pandas `value_counts` skips null facility names). -/
def create_distrik_histogram (df : Df) : List (String × Nat) × Df :=
  ((valueCounts (df.rows.filterMap (fun r => r.temuan_nama_distrik))).take 15, df)

/-- `create_kategori_wilayah_stacked_bar` (lines 133-146): the
(region, category) counts in long form. -/
def create_kategori_wilayah_stacked_bar (df : Df) :
    List ((String × String) × Nat) × Df :=
  (pairCounts ((wilayahCol df).zip (kategoriCol df)), df)

/-- C9: the dataframe handed to analysis and chart building (the line-236
state) is identical before and after each call: `analyze_k3_data`'s column
re-assignment rewrites `Wilayah` to the values it already has, the rows
are never changed, and no chart builder changes the state at all. -/
theorem C9_no_mutation (rows : List Record) :
    analyze_step (load_step rows) = load_step rows ∧
    (analyze_step (load_step rows)).rows = rows ∧
    (∀ df : Df,
      (create_kategori_pie_chart df).2 = df ∧
      (create_wilayah_bar_chart df).2 = df ∧
      (create_kategori_wilayah_heatmap df).2 = df ∧
      (create_distrik_histogram df).2 = df ∧
      (create_kategori_wilayah_stacked_bar df).2 = df) :=
  ⟨rfl, rfl, fun _ => ⟨rfl, rfl, rfl, rfl, rfl⟩⟩

/-- One cell of the `temuan_nama_distrik` column as read from a
spreadsheet: null/NaN, a string, a number, or a boolean. -/
inductive Cell where
  | null
  | str (s : String)
  | num (x : Int)
  | boolean (b : Bool)
deriving DecidableEq, Repr

/-- The Python exception raised at line 37 when a non-string cell has no
`.upper` attribute. -/
inductive PyError where
  | attributeError
deriving DecidableEq, Repr

/-- `map_wilayah_indonesia` on an arbitrary cell value: line 36 returns on
null/NaN, line 37's `.upper()` raises `AttributeError` on every non-string
value, and for strings the keyword matching of lines 38-50 runs. -/
def map_wilayah_cell : Cell → Except PyError String
  | Cell.null => Except.ok "Lainnya"
  | Cell.str s => Except.ok (classifyUpper (upperStr s))
  | Cell.num _ => Except.error PyError.attributeError
  | Cell.boolean _ => Except.error PyError.attributeError

/-- C10: the classifier terminates without error exactly on string-or-null
cells; every other cell value raises an `AttributeError` at the `.upper`
lookup instead of returning a region label. -/
theorem C10_non_string_raises (v : Cell) :
    ((∃ r, map_wilayah_cell v = Except.ok r) ↔ (v = Cell.null ∨ ∃ s, v = Cell.str s)) ∧
    ((v ≠ Cell.null ∧ ∀ s, v ≠ Cell.str s) →
      map_wilayah_cell v = Except.error PyError.attributeError) := by
  cases v <;> simp [map_wilayah_cell]

/-- Witness for C10 at the concrete numeric cell 3. -/
theorem C10_non_string_raises_witness :
    map_wilayah_cell (Cell.num 3) = Except.error PyError.attributeError :=
  (C10_non_string_raises (Cell.num 3)).2
    ⟨fun h => Cell.noConfusion h, fun _ h => Cell.noConfusion h⟩
